import Mathlib

/-!
Verification of the dispatch-summary pipeline (`data_processor.py`,
`excel_generator.py`, `utils.py`) against its natural-language specification.

The Python code is shallowly embedded: spreadsheet cell values become the
inductive type `PyVal` (distinguishing Python `None`, float `NaN`, strings and
integers, which is the granularity the pipeline observes), pandas dataframes
become lists of rows, and code that can raise becomes `Except`-valued
functions.  Each embedded definition mirrors one Python function and keeps its
name where Lean allows.
-/

/-- A spreadsheet / pandas cell value, at the granularity the pipeline
observes.  `pyNone` is Python `None`, `nan` is the float NaN that pandas uses
for missing cells; both are "null" for `pd.isna`, but they stringify
differently (`str(None) = "None"`, `str(nan) = "nan"`). -/
inductive PyVal where
  | pyNone : PyVal
  | nan : PyVal
  | str : String → PyVal
  | int : Int → PyVal
deriving DecidableEq

/-- `pd.isna` / `pd.isnull`: true exactly on `None` and NaN. -/
def isNA : PyVal → Bool
  | PyVal.pyNone => true
  | PyVal.nan => true
  | _ => false

/-- Python `str(value)` for the values `PyVal` models. -/
def pyStr : PyVal → String
  | PyVal.pyNone => "None"
  | PyVal.nan => "nan"
  | PyVal.str s => s
  | PyVal.int n => toString n

/-- The characters Python's `str.strip` (and `\s` in `re`) treats as
whitespace, restricted to ASCII. -/
def pyIsSpace (c : Char) : Bool :=
  c = ' ' || c = '\t' || c = '\n' || c = '\r' || c = '\x0b' || c = '\x0c'

/-- Python `str.strip()`: drop leading and trailing whitespace. -/
def pyStrip (s : String) : String :=
  List.asString (((s.toList.dropWhile pyIsSpace).reverse.dropWhile pyIsSpace).reverse)

/-- Python `str.lower()` (ASCII letters; the header marker the code compares
against is plain ASCII). -/
def pyLower (s : String) : String :=
  List.asString (s.toList.map Char.toLower)

/-- Python `str.endswith(suffix)`, via reversed character lists. -/
def pyEndsWith (s suffix : String) : Bool :=
  suffix.toList.reverse.isPrefixOf s.toList.reverse

/-- Python `needle in hay` substring test. -/
def pyContains (hay needle : String) : Bool :=
  containsAux needle.toList hay.toList
where
  containsAux (needle : List Char) : List Char → Bool
    | [] => needle.isPrefixOf []
    | c :: t => needle.isPrefixOf (c :: t) || containsAux needle t

/-! ## Header-offset detection (`DataProcessor._detect_data_start_row`) -/

/-- The predicate of `_detect_data_start_row`'s scan:
`str(value).strip().lower() == "activity start time"`. -/
def isHeaderCell (v : PyVal) : Bool :=
  pyLower (pyStrip (pyStr v)) = "activity start time"

/-- Top-to-bottom scan of `enumerate(preview.iloc[:, 0])`, returning the
zero-based index of the first matching cell. -/
def scanHeader (i : Nat) : List PyVal → Option Nat
  | [] => Option.none
  | v :: rest => if isHeaderCell v then some i else scanHeader (i + 1) rest

/-- `DataProcessor._detect_data_start_row`: the preview is
`pd.read_excel(path, nrows=20, header=None)`, so the scan sees at most the
first 20 rows of column 0; if no cell matches (or, in the Python code, the
preview read itself raises), the offset defaults to 11. -/
def detect_data_start_row (col0 : List PyVal) : Nat :=
  (scanHeader 0 (col0.take 20)).getD 11

theorem scanHeader_eq_none (L : List PyVal)
    (h : ∀ j, j < L.length → isHeaderCell (L.getD j (PyVal.str "")) = false) :
    ∀ n, scanHeader n L = Option.none := by
  induction L with
  | nil => intro n; rfl
  | cons v rest ih =>
    intro n
    have h0 : isHeaderCell v = false := h 0 (by simp)
    simp only [scanHeader, h0, Bool.false_eq_true, if_false]
    exact ih (fun j hj => h (j + 1) (by simpa using Nat.succ_lt_succ hj)) (n + 1)

theorem scanHeader_eq_first (L : List PyVal) (i : Nat)
    (hi : i < L.length)
    (hhit : isHeaderCell (L.getD i (PyVal.str "")) = true)
    (hfirst : ∀ j, j < i → isHeaderCell (L.getD j (PyVal.str "")) = false) :
    ∀ n, scanHeader n L = some (n + i) := by
  induction L generalizing i with
  | nil => simp at hi
  | cons v rest ih =>
    intro n
    cases i with
    | zero =>
      simp only [List.getD, List.get?, Option.getD_some] at hhit
      simp [scanHeader, hhit]
    | succ j =>
      have h0 : isHeaderCell v = false := hfirst 0 (Nat.succ_pos j)
      simp only [scanHeader, h0, Bool.false_eq_true, if_false]
      have := ih j (by simpa using Nat.lt_of_succ_lt_succ hi)
        (by simpa using hhit)
        (fun k hk => by simpa using hfirst (k + 1) (Nat.succ_lt_succ hk))
      rw [this (n + 1)]
      congr 1
      omega

/-- C5: for every spreadsheet column-0 preview, the dispatch data-start offset
is the 0-based index of the first row among the first 20 whose trimmed,
lower-cased text is "activity start time", and 11 when no such row exists
among the first 20. -/
theorem detect_data_start_row_spec (col0 : List PyVal) :
    ((∀ j, j < (col0.take 20).length →
        isHeaderCell ((col0.take 20).getD j (PyVal.str "")) = false) →
      detect_data_start_row col0 = 11)
  ∧ (∀ i, i < (col0.take 20).length →
      isHeaderCell ((col0.take 20).getD i (PyVal.str "")) = true →
      (∀ j, j < i → isHeaderCell ((col0.take 20).getD j (PyVal.str "")) = false) →
      detect_data_start_row col0 = i) := by
  constructor
  · intro h
    unfold detect_data_start_row
    rw [scanHeader_eq_none (col0.take 20) h 0]
    rfl
  · intro i hi hhit hfirst
    unfold detect_data_start_row
    rw [scanHeader_eq_first (col0.take 20) i hi hhit hfirst 0]
    simp

/-- Witness for C5: the spec's example (column 0 = `["x", "y",
"Activity Start Time", "data"]`) detects offset 2. -/
theorem detect_data_start_row_spec_witness :
    detect_data_start_row
      [PyVal.str "x", PyVal.str "y", PyVal.str "Activity Start Time",
        PyVal.str "data"] = 2 := by
  apply (detect_data_start_row_spec
    [PyVal.str "x", PyVal.str "y", PyVal.str "Activity Start Time",
      PyVal.str "data"]).2 2
  · decide
  · decide
  · decide

/-! ## Timestamp conversion (`DataProcessor._convert_to_eastern_hour`)

The Python code strips the last 4 characters, parses the remainder with
`datetime.strptime(_, "%Y-%m-%d %H:%M")` and returns
`pytz.timezone('US/Eastern').localize(naive_dt).hour`; `localize` (with its
default `is_dst=False`) never raises and keeps the wall-clock fields, so the
result is the parsed hour.  The field parsers below follow CPython's
`_strptime` regular expressions (`%Y` = exactly four digits, `%m` =
`1[0-2]|0[1-9]|[1-9]`, `%d` = `3[01]|[12]\d|0[1-9]|[1-9]`, `%H` =
`2[0-3]|[0-1]\d|\d`, `%M` = `[0-5]\d|\d`, a format-string space = one or more
whitespace characters), followed by `datetime`'s range validation of the day
of month and year. -/

/-- The wall-clock timestamp parsed out of the text. -/
structure NaiveDT where
  year : Nat
  month : Nat
  day : Nat
  hour : Nat
  minute : Nat
deriving DecidableEq

/-- Numeric value of an ASCII digit character. -/
def digitVal (c : Char) : Nat := c.toNat - 48

/-- ASCII digit test (codes 48–57, i.e. characters 0–9). -/
def isDigitChar (c : Char) : Bool := 48 ≤ c.toNat && c.toNat ≤ 57

/-- `%Y`: exactly four digits. -/
def parseYearField : List Char → Option (Nat × List Char)
  | a :: b :: c :: d :: rest =>
    if isDigitChar a && isDigitChar b && isDigitChar c && isDigitChar d then
      some (1000 * digitVal a + 100 * digitVal b + 10 * digitVal c + digitVal d, rest)
    else Option.none
  | _ => Option.none

/-- `%m`: regex alternation `1[0-2]|0[1-9]|[1-9]`, tried left to right. -/
def parseMonthField : List Char → Option (Nat × List Char)
  | a :: b :: rest =>
    if a = '1' && 48 ≤ b.toNat && b.toNat ≤ 50 then some (10 + digitVal b, rest)
    else if a = '0' && 49 ≤ b.toNat && b.toNat ≤ 57 then some (digitVal b, rest)
    else if 49 ≤ a.toNat && a.toNat ≤ 57 then some (digitVal a, b :: rest)
    else Option.none
  | [a] =>
    if 49 ≤ a.toNat && a.toNat ≤ 57 then some (digitVal a, []) else Option.none
  | [] => Option.none

/-- `%d`: regex alternation `3[01]|[12]\d|0[1-9]|[1-9]`. -/
def parseDayField : List Char → Option (Nat × List Char)
  | a :: b :: rest =>
    if a = '3' && 48 ≤ b.toNat && b.toNat ≤ 49 then some (30 + digitVal b, rest)
    else if 49 ≤ a.toNat && a.toNat ≤ 50 && isDigitChar b then
      some (10 * digitVal a + digitVal b, rest)
    else if a = '0' && 49 ≤ b.toNat && b.toNat ≤ 57 then some (digitVal b, rest)
    else if 49 ≤ a.toNat && a.toNat ≤ 57 then some (digitVal a, b :: rest)
    else Option.none
  | [a] =>
    if 49 ≤ a.toNat && a.toNat ≤ 57 then some (digitVal a, []) else Option.none
  | [] => Option.none

/-- `%H`: regex alternation `2[0-3]|[0-1]\d|\d`. -/
def parseHourField : List Char → Option (Nat × List Char)
  | a :: b :: rest =>
    if a = '2' && 48 ≤ b.toNat && b.toNat ≤ 51 then some (20 + digitVal b, rest)
    else if 48 ≤ a.toNat && a.toNat ≤ 49 && isDigitChar b then
      some (10 * digitVal a + digitVal b, rest)
    else if isDigitChar a then some (digitVal a, b :: rest)
    else Option.none
  | [a] => if isDigitChar a then some (digitVal a, []) else Option.none
  | [] => Option.none

/-- `%M`: regex alternation `[0-5]\d|\d`. -/
def parseMinuteField : List Char → Option (Nat × List Char)
  | a :: b :: rest =>
    if 48 ≤ a.toNat && a.toNat ≤ 53 && isDigitChar b then
      some (10 * digitVal a + digitVal b, rest)
    else if isDigitChar a then some (digitVal a, b :: rest)
    else Option.none
  | [a] => if isDigitChar a then some (digitVal a, []) else Option.none
  | [] => Option.none

/-- A literal character of the format string. -/
def expectChar (c : Char) : List Char → Option (List Char)
  | a :: rest => if a = c then some rest else Option.none
  | [] => Option.none

/-- Whitespace in a strptime format string matches one or more whitespace
characters (`\s+`). -/
def expectSpaces : List Char → Option (List Char)
  | a :: rest => if pyIsSpace a then some (rest.dropWhile pyIsSpace) else Option.none
  | [] => Option.none

def isLeapYear (y : Nat) : Bool := (y % 4 = 0 && y % 100 ≠ 0) || y % 400 = 0

def daysInMonth (y m : Nat) : Nat :=
  if m = 2 then (if isLeapYear y then 29 else 28)
  else if m = 4 || m = 6 || m = 9 || m = 11 then 30
  else 31

/-- `datetime.strptime(s, "%Y-%m-%d %H:%M")`, returning `none` where Python
raises `ValueError` (no regex match, unconverted trailing data, or a
day/year outside `datetime`'s range). -/
def strptimeYMDHM (s : String) : Option NaiveDT :=
  (parseYearField s.toList).bind (fun py =>
  (expectChar '-' py.2).bind (fun r2 =>
  (parseMonthField r2).bind (fun pm =>
  (expectChar '-' pm.2).bind (fun r4 =>
  (parseDayField r4).bind (fun pd =>
  (expectSpaces pd.2).bind (fun r6 =>
  (parseHourField r6).bind (fun ph =>
  (expectChar ':' ph.2).bind (fun r8 =>
  (parseMinuteField r8).bind (fun pmin =>
    if pmin.2 = [] && 1 ≤ py.1 && pd.1 ≤ daysInMonth py.1 pm.1 then
      some ⟨py.1, pm.1, pd.1, ph.1, pmin.1⟩
    else Option.none)))))))))

/-- Python `s[:-4]`: drop the last four characters (empty if shorter). -/
def pyDropLast4 (s : String) : String :=
  List.asString (s.toList.take (s.toList.length - 4))

/-- `DataProcessor._convert_to_eastern_hour`.  Non-text cells (`None`, NaN,
numbers) yield `none`: `None`/NaN fail the `pd.notnull` guard, and slicing a
number raises `TypeError`, which the `except` swallows.  For text, the last
four characters are stripped, the remainder is parsed, and on success the
hour of the US-Eastern-localized timestamp — its wall-clock hour — is
returned; on parse failure the `except` yields `None`. -/
def convert_to_eastern_hour (v : PyVal) : Option Nat :=
  match v with
  | PyVal.str s => (strptimeYMDHM (pyDropLast4 s)).map (fun dt => dt.hour)
  | _ => Option.none

theorem parseHourField_lt (cs : List Char) (h : Nat) (r : List Char)
    (hp : parseHourField cs = some (h, r)) : h < 24 := by
  match cs with
  | [] => simp [parseHourField] at hp
  | [a] =>
    simp only [parseHourField] at hp
    split at hp
    · rename_i hd
      simp only [isDigitChar, Bool.and_eq_true, decide_eq_true_eq] at hd
      cases hp
      simp only [digitVal]
      omega
    · cases hp
  | a :: b :: rest =>
    simp only [parseHourField] at hp
    split at hp
    · rename_i hc
      simp only [Bool.and_eq_true, decide_eq_true_eq] at hc
      cases hp
      simp only [digitVal]
      omega
    · split at hp
      · rename_i hc
        simp only [isDigitChar, Bool.and_eq_true, decide_eq_true_eq] at hc
        cases hp
        simp only [digitVal]
        omega
      · split at hp
        · rename_i hc
          simp only [isDigitChar, Bool.and_eq_true, decide_eq_true_eq] at hc
          cases hp
          simp only [digitVal]
          omega
        · cases hp

theorem strptimeYMDHM_hour_lt (s : String) (dt : NaiveDT)
    (hp : strptimeYMDHM s = some dt) : dt.hour < 24 := by
  simp only [strptimeYMDHM, Option.bind_eq_some] at hp
  obtain ⟨py, hy, r2, h2, pm, hm, r4, h4, pd, hd, r6, h6, ph, hh, r8, h8,
    pmin, hmin, hfin⟩ := hp
  split at hfin
  · cases hfin
    exact parseHourField_lt _ _ _ hh
  · cases hfin

/-- C4: for every cell value, the timestamp-to-hour conversion returns the
parsed hour — the US Eastern wall-clock hour, in 0–23 — exactly when the value
is text whose first (length − 4) characters parse as `YYYY-MM-DD HH:MM`, and
null for unparsable text and for every non-text cell; the embedded function is
total, matching the code's catch-all error handling. -/
theorem convert_to_eastern_hour_spec (v : PyVal) :
    (∀ s dt, v = PyVal.str s → strptimeYMDHM (pyDropLast4 s) = some dt →
      convert_to_eastern_hour v = some dt.hour ∧ dt.hour < 24)
  ∧ (∀ s, v = PyVal.str s → strptimeYMDHM (pyDropLast4 s) = Option.none →
      convert_to_eastern_hour v = Option.none)
  ∧ ((∀ s, v ≠ PyVal.str s) → convert_to_eastern_hour v = Option.none) := by
  refine ⟨?_, ?_, ?_⟩
  · intro s dt hv hp
    subst hv
    exact ⟨by simp [convert_to_eastern_hour, hp], strptimeYMDHM_hour_lt _ _ hp⟩
  · intro s hv hp
    subst hv
    simp [convert_to_eastern_hour, hp]
  · intro hns
    cases v with
    | str s => exact absurd rfl (hns s)
    | pyNone => rfl
    | nan => rfl
    | int n => rfl

/-- Witness for C4: the spec's example `"2024-06-15 14:30 EDT"` (the 4-char
suffix `" EDT"` is stripped) converts to hour 14, and a non-text cell (NaN)
converts to null. -/
theorem convert_to_eastern_hour_spec_witness :
    convert_to_eastern_hour (PyVal.str "2024-06-15 14:30 EDT") = some 14 ∧
    convert_to_eastern_hour PyVal.nan = Option.none := by
  constructor
  · exact ((convert_to_eastern_hour_spec (PyVal.str "2024-06-15 14:30 EDT")).1
      "2024-06-15 14:30 EDT" ⟨2024, 6, 15, 14, 30⟩ rfl (by decide)).1
  · exact (convert_to_eastern_hour_spec PyVal.nan).2.2 (by intro s h; cases h)

/-! ## Filename metadata (`DataProcessor._split_filename_metadata` and
`DataProcessor._clean_baseline_column`)

`_split_filename_metadata` splits the `Source` filename on `_` with
`str.split('_', expand=True)` and reindexes to columns 0–6 with a `None`
fill, so short filenames are padded with nulls and parts beyond the 7th are
dropped.  `_clean_baseline_column` then runs
`df['Baseline'].astype(str).apply(lambda x: x.split('.')[0] ...)`:
`astype(str)` turns a `None` pad into the literal string `"None"` before the
dot-split, and its `pd.notnull` guard is vacuous after `astype(str)`. -/

/-- Splitting a character list at every occurrence of `sep`; the empty list
splits to one empty piece, as Python's `"".split(sep)` yields `['']`. -/
def splitList (sep : Char) : List Char → List (List Char)
  | [] => [[]]
  | c :: t =>
    if c = sep then [] :: splitList sep t
    else
      match splitList sep t with
      | [] => [[c]]
      | h :: r => (c :: h) :: r

/-- Python `s.split(sep)` for a one-character separator. -/
def pySplitOn (sep : Char) (s : String) : List String :=
  (splitList sep s.toList).map List.asString

/-- One row of the metadata block `_split_filename_metadata` returns;
`Option.none` is a null (`None`) cell. -/
structure FilenameMeta where
  date : Option String
  report : Option String
  storeId : Option String
  country : Option String
  product : Option String
  idCol : Option String
  baseline : Option String
deriving DecidableEq

/-- `DataProcessor._split_filename_metadata` for one source filename. -/
def split_filename_metadata (filename : String) : FilenameMeta :=
  let parts := pySplitOn '_' filename
  { date := parts.get? 0, report := parts.get? 1, storeId := parts.get? 2,
    country := parts.get? 3, product := parts.get? 4, idCol := parts.get? 5,
    baseline := parts.get? 6 }

/-- Python `str(x)` for an object-dtype cell that is either a string or
`None` — what `astype(str)` applies elementwise. -/
def pyStrOfOptStr : Option String → String
  | Option.none => "None"
  | some s => s

/-- `DataProcessor._clean_baseline_column` on one Baseline cell:
`str(x).split('.')[0]`.  The result is always a (non-null) string. -/
def clean_baseline (b : Option String) : Option String :=
  some ((pySplitOn '.' (pyStrOfOptStr b)).headD "")

/-- The composite filename-metadata derivation the pipeline applies to every
record: split the filename, then clean the Baseline field. -/
def derive_filename_metadata (filename : String) : FilenameMeta :=
  let m := split_filename_metadata filename
  { m with baseline := clean_baseline m.baseline }

/-- Counterexample to C3 as stated: for the 2-part filename `"a_b"` the
derived Baseline is the literal string `"None"`, not null (while the other
missing trailing fields are null), because `_clean_baseline_column`
stringifies the null pad before splitting on `'.'`. -/
theorem derive_filename_metadata_counterexample :
    (derive_filename_metadata "a_b").baseline = some "None" ∧
    (derive_filename_metadata "a_b").storeId = Option.none := by
  constructor <;> rfl

/-- C3 (amended): filename-metadata derivation splits on `_` into exactly 7
positional fields, pads the missing trailing fields among the first six with
null, drops parts beyond the 7th, and never raises; Baseline is the 7th field
truncated at its first `'.'` (removing the file extension) when the 7th field
exists, and the string `"None"` (the stringified null pad) when it does not. -/
theorem derive_filename_metadata_spec (filename : String) :
    (derive_filename_metadata filename).date = (pySplitOn '_' filename).get? 0
  ∧ (derive_filename_metadata filename).report = (pySplitOn '_' filename).get? 1
  ∧ (derive_filename_metadata filename).storeId = (pySplitOn '_' filename).get? 2
  ∧ (derive_filename_metadata filename).country = (pySplitOn '_' filename).get? 3
  ∧ (derive_filename_metadata filename).product = (pySplitOn '_' filename).get? 4
  ∧ (derive_filename_metadata filename).idCol = (pySplitOn '_' filename).get? 5
  ∧ (derive_filename_metadata filename).baseline =
      some ((pySplitOn '.'
        (pyStrOfOptStr ((pySplitOn '_' filename).get? 6))).headD "")
  ∧ (∀ s, (pySplitOn '_' filename).get? 6 = some s →
      (derive_filename_metadata filename).baseline =
        some ((pySplitOn '.' s).headD "")) := by
  refine ⟨rfl, rfl, rfl, rfl, rfl, rfl, rfl, ?_⟩
  intro s hs
  have hb : (derive_filename_metadata filename).baseline =
      some ((pySplitOn '.'
        (pyStrOfOptStr ((pySplitOn '_' filename).get? 6))).headD "") := rfl
  rw [hb, hs]
  rfl

/-- Witness for C3: the spec's example
`"20240101_Rpt_123_US_Grocery_42_SimA.xlsx"` yields Baseline `"SimA"`. -/
theorem derive_filename_metadata_spec_witness :
    (derive_filename_metadata "20240101_Rpt_123_US_Grocery_42_SimA.xlsx").baseline
      = some "SimA" := by
  have h := (derive_filename_metadata_spec
    "20240101_Rpt_123_US_Grocery_42_SimA.xlsx").2.2.2.2.2.2.2 "SimA.xlsx"
    (by decide)
  rw [h]
  rfl

/-! ## Dispatch-table enhancement (`DataProcessor._enhance_dispatch_data`)

The assembled DispatchTable always has the fixed column set of
`_create_dispatch_dataframe` and a fresh 0-based range index, so the
`all(col in df.columns ...)` guard always holds and `idx` in the Trip Id loop
is the row's 0-based position.  The rows are modelled with only the columns
the enhancement reads or writes; the remaining columns are untouched
passthrough data. -/

/-- One row of the assembled DispatchTable, restricted to the columns
`_enhance_dispatch_data` reads or writes. -/
structure DispatchRow where
  activityStartTime : PyVal
  routeNumber : PyVal
  unitType : PyVal
  comment : PyVal
  tripId : PyVal
  simulation : PyVal
deriving DecidableEq

/-- The row filter of the stop-numbering step:
`Unit Type == 'STORE'` and `Route Number`/`Simulation` non-null. -/
def isStoreRow (r : DispatchRow) : Bool :=
  decide (r.unitType = PyVal.str "STORE" ∧ isNA r.routeNumber = false ∧
    isNA r.simulation = false)

/-- Two rows fall into the same `groupby(['Route Number', 'Simulation'])`
group. -/
def sameGroup (r1 r2 : DispatchRow) : Bool :=
  decide (r1.routeNumber = r2.routeNumber ∧ r1.simulation = r2.simulation)

/-- Elementwise map carrying the 0-based row position (the range-index value
pandas iterates over). -/
def mapWithIndex (f : Nat → DispatchRow → DispatchRow) :
    Nat → List DispatchRow → List DispatchRow
  | _, [] => []
  | i, r :: rest => f i r :: mapWithIndex f (i + 1) rest

theorem mapWithIndex_get? (f : Nat → DispatchRow → DispatchRow)
    (l : List DispatchRow) (n i : Nat) :
    (mapWithIndex f n l).get? i = (l.get? i).map (f (n + i)) := by
  induction l generalizing n i with
  | nil => simp [mapWithIndex]
  | cons r rest ih =>
    cases i with
    | zero => simp [mapWithIndex]
    | succ j =>
      simp only [mapWithIndex, List.get?_cons_succ, ih (n + 1) j]
      rw [Nat.add_assoc n 1 j, Nat.add_comm 1 j]

/-- The comment text written for the `k`-th store stop (1-based) of a group
with `total` stops. -/
def stopComment (k total : Nat) : String :=
  "Stop " ++ toString k ++ " of " ++ toString total

/-- Number of store rows of `r`'s group strictly before position `i`. -/
def stopsBefore (df : List DispatchRow) (i : Nat) (r : DispatchRow) : Nat :=
  ((df.take i).filter (fun r2 => isStoreRow r2 && sameGroup r r2)).length

/-- Total number of store rows of `r`'s group in the whole table. -/
def stopsTotal (df : List DispatchRow) (r : DispatchRow) : Nat :=
  (df.filter (fun r2 => isStoreRow r2 && sameGroup r r2)).length

/-- The stop-numbering step of `_enhance_dispatch_data`: every row's Comment
is first stringified by `df['Comment'].astype(str)` (turning nulls into
`"nan"`), then each store row's Comment is overwritten with
`"Stop {n} of {total}"`, where `total` is the size of the row's
`(Route Number, Simulation)` group among store rows and `n` is the row's
1-based order of appearance inside that group (pandas' `groupby` preserves
intra-group row order, and the `.loc[index] = values` write-back pairs each
row with its own group-local number). -/
def assignStopComments (df : List DispatchRow) : List DispatchRow :=
  mapWithIndex
    (fun i r =>
      if isStoreRow r then
        { r with comment := PyVal.str (stopComment (stopsBefore df i r + 1) (stopsTotal df r)) }
      else
        { r with comment := PyVal.str (pyStr r.comment) })
    0 df

/-- The Trip Id formula text for Excel row `k` (1-based, header included). -/
def tripFormula (k : Nat) : String :=
  "=TEXT(N" ++ toString k ++ "/41500,\"0.00%\")"

/-- The Trip Id step of `_enhance_dispatch_data`: for every row whose
`Activity start time` is null, `Trip Id` is set to the verbatim formula
string, with the Excel row computed as `idx + 2` (0-based position, plus 1
for 1-based Excel rows, plus 1 for the header row). -/
def addTripFormulas (df : List DispatchRow) : List DispatchRow :=
  mapWithIndex
    (fun i r =>
      if isNA r.activityStartTime then
        { r with tripId := PyVal.str (tripFormula (i + 2)) }
      else r)
    0 df

/-- `DataProcessor._enhance_dispatch_data`: stop numbering, then Trip Id
formulas. -/
def enhance_dispatch_data (df : List DispatchRow) : List DispatchRow :=
  addTripFormulas (assignStopComments df)

theorem assignStopComments_get? (df : List DispatchRow) (i : Nat)
    (r : DispatchRow) (h : df.get? i = some r) :
    (assignStopComments df).get? i = some
      (if isStoreRow r then
        { r with comment := PyVal.str (stopComment (stopsBefore df i r + 1) (stopsTotal df r)) }
      else
        { r with comment := PyVal.str (pyStr r.comment) }) := by
  unfold assignStopComments
  rw [mapWithIndex_get?, h]
  simp

theorem addTripFormulas_get? (df : List DispatchRow) (i : Nat)
    (r : DispatchRow) (h : df.get? i = some r) :
    (addTripFormulas df).get? i = some
      (if isNA r.activityStartTime then
        { r with tripId := PyVal.str (tripFormula (i + 2)) }
      else r) := by
  unfold addTripFormulas
  rw [mapWithIndex_get?, h]
  simp

/-- Counterexample to C2 as stated: a single non-STORE row whose Comment is
null does not keep its Comment — `df['Comment'].astype(str)` turns the null
into the literal string `"nan"`. -/
theorem enhance_dispatch_data_counterexample :
    (enhance_dispatch_data
      [{ activityStartTime := PyVal.str "t", routeNumber := PyVal.str "R1",
         unitType := PyVal.str "DEPOT", comment := PyVal.nan,
         tripId := PyVal.str "T1", simulation := PyVal.str "S1" }]).get? 0 =
    some { activityStartTime := PyVal.str "t", routeNumber := PyVal.str "R1",
           unitType := PyVal.str "DEPOT", comment := PyVal.str "nan",
           tripId := PyVal.str "T1", simulation := PyVal.str "S1" } := by
  rfl

/-- C2 (amended): the enhancement sets the Comment of exactly those rows with
`Unit Type == "STORE"` and non-null `Route Number` and `Simulation` to
`"Stop n of N"` (with `N` the number of such rows sharing the row's
`(Route Number, Simulation)` key and `n` the row's 1-based order of
appearance in that group in existing table order); every other row's Comment
is replaced by its Python string form — which leaves string Comments
unchanged but turns a null Comment into the string `"nan"`. -/
theorem enhance_dispatch_data_comment_spec (df : List DispatchRow) (i : Nat)
    (r : DispatchRow) (h : df.get? i = some r) :
    ((enhance_dispatch_data df).get? i).map DispatchRow.comment = some
      (if isStoreRow r then
        PyVal.str (stopComment (stopsBefore df i r + 1) (stopsTotal df r))
      else PyVal.str (pyStr r.comment)) := by
  unfold enhance_dispatch_data
  rw [addTripFormulas_get? _ i _ (assignStopComments_get? df i r h)]
  by_cases hs : isStoreRow r = true <;>
    by_cases hn : isNA r.activityStartTime = true <;>
      simp [hs, hn]

/-- A three-stop STORE route used to exercise the stop-numbering step. -/
def storeRouteExample : List DispatchRow :=
  [{ activityStartTime := PyVal.str "t1", routeNumber := PyVal.str "R1",
     unitType := PyVal.str "STORE", comment := PyVal.nan,
     tripId := PyVal.str "T1", simulation := PyVal.str "S1" },
   { activityStartTime := PyVal.str "t2", routeNumber := PyVal.str "R1",
     unitType := PyVal.str "STORE", comment := PyVal.nan,
     tripId := PyVal.str "T2", simulation := PyVal.str "S1" },
   { activityStartTime := PyVal.str "t3", routeNumber := PyVal.str "R1",
     unitType := PyVal.str "STORE", comment := PyVal.nan,
     tripId := PyVal.str "T3", simulation := PyVal.str "S1" }]

/-- Witness for C2: in the spec's example — three STORE rows sharing
`(Route Number = "R1", Simulation = "S1")`, in existing order — the middle
row's Comment comes out as `"Stop 2 of 3"`, obtained by applying the amended
theorem at row position 1. -/
theorem enhance_dispatch_data_comment_spec_witness :
    (((enhance_dispatch_data storeRouteExample).get? 1).map
      DispatchRow.comment) = some (PyVal.str "Stop 2 of 3") := by
  rw [enhance_dispatch_data_comment_spec storeRouteExample 1
    { activityStartTime := PyVal.str "t2", routeNumber := PyVal.str "R1",
      unitType := PyVal.str "STORE", comment := PyVal.nan,
      tripId := PyVal.str "T2", simulation := PyVal.str "S1" } rfl]
  rfl

/-- C6: for every row of the assembled DispatchTable whose
`Activity start time` is null, and only those rows, `Trip Id` is set to the
verbatim string `=TEXT(Nk/41500,"0.00%")` with `k` the row's 1-based output
position plus 1 for the header row (i.e. 0-based position + 2); rows with a
non-null `Activity start time` keep their existing Trip Id. -/
theorem enhance_dispatch_data_tripid_spec (df : List DispatchRow) (i : Nat)
    (r : DispatchRow) (h : df.get? i = some r) :
    ((enhance_dispatch_data df).get? i).map DispatchRow.tripId = some
      (if isNA r.activityStartTime then PyVal.str (tripFormula (i + 2))
       else r.tripId) := by
  unfold enhance_dispatch_data
  rw [addTripFormulas_get? _ i _ (assignStopComments_get? df i r h)]
  by_cases hs : isStoreRow r = true <;>
    by_cases hn : isNA r.activityStartTime = true <;>
      simp [hs, hn]

/-- A two-row dispatch table: the first row has a null
`Activity start time`, the second a non-null one. -/
def tripIdExample : List DispatchRow :=
  [{ activityStartTime := PyVal.nan, routeNumber := PyVal.str "R1",
     unitType := PyVal.str "DEPOT", comment := PyVal.str "c",
     tripId := PyVal.str "T1", simulation := PyVal.str "S1" },
   { activityStartTime := PyVal.str "t2", routeNumber := PyVal.str "R1",
     unitType := PyVal.str "DEPOT", comment := PyVal.str "c",
     tripId := PyVal.str "T2", simulation := PyVal.str "S1" }]

/-- Witness for C6: the first row of `tripIdExample` has a null
`Activity start time`, so its Trip Id becomes `=TEXT(N2/41500,"0.00%")`
(0-based position 0, Excel row 2); the second row's start time is non-null,
so its Trip Id `"T2"` is kept. -/
theorem enhance_dispatch_data_tripid_spec_witness :
    (((enhance_dispatch_data tripIdExample).get? 0).map
      DispatchRow.tripId) = some (PyVal.str "=TEXT(N2/41500,\"0.00%\")") ∧
    (((enhance_dispatch_data tripIdExample).get? 1).map
      DispatchRow.tripId) = some (PyVal.str "T2") := by
  constructor
  · rw [enhance_dispatch_data_tripid_spec tripIdExample 0
      { activityStartTime := PyVal.nan, routeNumber := PyVal.str "R1",
        unitType := PyVal.str "DEPOT", comment := PyVal.str "c",
        tripId := PyVal.str "T1", simulation := PyVal.str "S1" } rfl]
    rfl
  · rw [enhance_dispatch_data_tripid_spec tripIdExample 1
      { activityStartTime := PyVal.str "t2", routeNumber := PyVal.str "R1",
        unitType := PyVal.str "DEPOT", comment := PyVal.str "c",
        tripId := PyVal.str "T2", simulation := PyVal.str "S1" } rfl]
    rfl

/-! ## Report assembly (`ExcelGenerator.create_report`)

`create_report` builds, in order: the Analysis sheet (whose handler re-raises
any exception), the Summary pivot (whose handler swallows exceptions, and
which returns before creating its worksheet when the Totals dataframe is
empty), the three raw dumps (unguarded, so their exceptions hit the top-level
handler, which logs and re-raises), and the MDT Analysis chart sheet (whose
handler swallows exceptions, and which returns before creating its worksheet
when the MDT dataframe is empty or lacks a `Time Range` column).  Each
builder is modelled by its outcome: the sheets it added, and whether it
raised. -/

/-- Outcome of one sheet-building step: the sheet names it created, and
whether it ended by raising an exception. -/
inductive StepResult where
  | ok (sheets : List String)
  | fail (sheets : List String)
deriving DecidableEq

/-- The sheets a step left in the workbook (a step that raised may have
already created its worksheet). -/
def StepResult.sheets : StepResult → List String
  | StepResult.ok s => s
  | StepResult.fail s => s

/-- Whether the step raised. -/
def StepResult.raised : StepResult → Bool
  | StepResult.ok _ => false
  | StepResult.fail _ => true

/-- `ExcelGenerator.create_report` control flow over the four step outcomes.
An exception from the Analysis step or from the raw `to_excel` dumps
propagates to the caller (the top-level handler logs and re-raises); pivot
and chart exceptions are swallowed inside their builders, so the steps after
them still run. -/
def create_report (analysis pivot rawDumps chart : StepResult) :
    Except Unit (List String) :=
  if analysis.raised then Except.error ()
  else if rawDumps.raised then Except.error ()
  else Except.ok (analysis.sheets ++ pivot.sheets ++ rawDumps.sheets ++ chart.sheets)

/-- The sheets `_create_pivot_table` adds when no library call raises: none
when the Totals dataframe is empty (early return), else the `Summary`
sheet. -/
def pivot_sheets (totalsEmpty : Bool) : List String :=
  if totalsEmpty then [] else ["Summary"]

/-- The sheets `_create_mdt_chart` adds when no library call raises: none
when the MDT dataframe is empty or has no `Time Range` column (early
return), else the `MDT Analysis` sheet. -/
def mdt_chart_sheets (mdtEmpty hasTimeRange : Bool) : List String :=
  if mdtEmpty || !hasTimeRange then [] else ["MDT Analysis"]

/-- The three unconditional raw dumps, in creation order. -/
def raw_sheets : List String :=
  ["Dispatch Summaries Raw", "MDT Raw", "Totals Raw"]

/-- A `create_report` run in which every library call succeeds, as a function
of the dataset shapes: the resulting workbook's sheet names in creation
order. -/
def create_report_sheets (totalsEmpty mdtEmpty hasTimeRange : Bool) :
    Except Unit (List String) :=
  create_report (StepResult.ok ["Analysis"])
    (StepResult.ok (pivot_sheets totalsEmpty))
    (StepResult.ok raw_sheets)
    (StepResult.ok (mdt_chart_sheets mdtEmpty hasTimeRange))

/-- Counterexample to C1 as stated: with empty Totals and MDT datasets,
report generation returns without raising, but the workbook has only the
four sheets `Analysis`, `Dispatch Summaries Raw`, `MDT Raw`, `Totals Raw` —
`Summary` and `MDT Analysis` are skipped by the builders' early returns. -/
theorem create_report_sheets_counterexample :
    create_report_sheets true true true =
      Except.ok ["Analysis", "Dispatch Summaries Raw", "MDT Raw", "Totals Raw"] ∧
    (["Analysis", "Dispatch Summaries Raw", "MDT Raw", "Totals Raw"] ≠
      ["Analysis", "Summary", "Dispatch Summaries Raw", "MDT Raw",
        "Totals Raw", "MDT Analysis"]) := by
  constructor
  · rfl
  · decide

/-- C1 (amended): a run of report generation in which no sheet-builder
raises always returns without raising; its workbook contains the six sheets
`Analysis`, `Summary`, `Dispatch Summaries Raw`, `MDT Raw`, `Totals Raw`,
`MDT Analysis` (in creation order) exactly when the Totals dataset is
non-empty and the MDT dataset is non-empty with a `Time Range` column;
otherwise `Summary` (empty Totals) and/or `MDT Analysis` (empty or
column-less MDT) are omitted and the rest are still produced. -/
theorem create_report_sheets_spec (totalsEmpty mdtEmpty hasTimeRange : Bool) :
    create_report_sheets totalsEmpty mdtEmpty hasTimeRange =
      Except.ok (["Analysis"] ++ (if totalsEmpty then [] else ["Summary"]) ++
        ["Dispatch Summaries Raw", "MDT Raw", "Totals Raw"] ++
        (if mdtEmpty || !hasTimeRange then [] else ["MDT Analysis"]))
  ∧ ((["Analysis"] ++ (if totalsEmpty then [] else ["Summary"]) ++
        ["Dispatch Summaries Raw", "MDT Raw", "Totals Raw"] ++
        (if mdtEmpty || !hasTimeRange then [] else ["MDT Analysis"])) =
      ["Analysis", "Summary", "Dispatch Summaries Raw", "MDT Raw",
        "Totals Raw", "MDT Analysis"] ↔
      totalsEmpty = false ∧ mdtEmpty = false ∧ hasTimeRange = true) := by
  cases totalsEmpty <;> cases mdtEmpty <;> cases hasTimeRange <;>
    exact ⟨rfl, by decide⟩

/-- Witness for C1: with non-empty Totals, non-empty MDT and the
`Time Range` column present, the workbook has exactly the six sheets. -/
theorem create_report_sheets_spec_witness :
    create_report_sheets false false true =
      Except.ok ["Analysis", "Summary", "Dispatch Summaries Raw", "MDT Raw",
        "Totals Raw", "MDT Analysis"] := by
  have h := create_report_sheets_spec false false true
  rw [h.1, h.2.mpr ⟨rfl, rfl, rfl⟩]

/-- C8: an exception raised while building the Summary pivot or the MDT
Analysis chart is swallowed and the rest of the workbook is still written
(the result is a successful workbook that keeps the Analysis sheet, all
three raw dumps, and whatever the failing builders had already added),
whereas an exception in the Analysis sheet builder — or in the unguarded
workbook-level writes — propagates and report generation returns an
error. -/
theorem create_report_error_handling (analysis pivot rawDumps chart : StepResult) :
    (analysis.raised = true →
      create_report analysis pivot rawDumps chart = Except.error ())
  ∧ (rawDumps.raised = true →
      create_report analysis pivot rawDumps chart = Except.error ())
  ∧ (analysis.raised = false → rawDumps.raised = false →
      create_report analysis pivot rawDumps chart =
        Except.ok (analysis.sheets ++ pivot.sheets ++ rawDumps.sheets ++
          chart.sheets)) := by
  refine ⟨?_, ?_, ?_⟩
  · intro ha
    simp [create_report, ha]
  · intro hr
    by_cases ha : analysis.raised = true <;> simp [create_report, ha, hr]
  · intro ha hr
    simp [create_report, ha, hr]

/-- Witness for C8: a pivot-step exception (which had created no sheet yet)
and a chart-step exception still yield a successful workbook containing the
Analysis sheet and the three raw dumps; an Analysis-step exception yields an
error. -/
theorem create_report_error_handling_witness :
    create_report (StepResult.ok ["Analysis"]) (StepResult.fail [])
      (StepResult.ok raw_sheets) (StepResult.fail []) =
      Except.ok ["Analysis", "Dispatch Summaries Raw", "MDT Raw", "Totals Raw"] ∧
    create_report (StepResult.fail ["Analysis"]) (StepResult.ok ["Summary"])
      (StepResult.ok raw_sheets) (StepResult.ok ["MDT Analysis"]) =
      Except.error () := by
  constructor
  · exact ((create_report_error_handling (StepResult.ok ["Analysis"])
      (StepResult.fail []) (StepResult.ok raw_sheets)
      (StepResult.fail [])).2.2 rfl rfl).trans rfl
  · exact (create_report_error_handling (StepResult.fail ["Analysis"])
      (StepResult.ok ["Summary"]) (StepResult.ok raw_sheets)
      (StepResult.ok ["MDT Analysis"])).1 rfl

/-! ## Annualization (`ExcelGenerator._calculate_modeled_weeks` and the
Analysis sheet's `annual_factor`)

Python's builtin `round` rounds half to even.  For the quantities this code
rounds (`52 / modeled_weeks` with `modeled_weeks ≤ 52`, and
`distinct_count / 7`), the float quotient is close enough to the rational
quotient that the float rounding agrees with exact rational
round-half-to-even, so the embedding computes over `ℚ`.
`pd.to_datetime` is modelled by a parsability oracle `parsableDate`: the
`except` branch of `_calculate_modeled_weeks` fires — yielding the 1-week
fallback — exactly when some non-null Date value is unparsable. -/

/-- Python `round`: round half to even. -/
def pythonRound (q : ℚ) : ℤ :=
  if q - ⌊q⌋ < 1 / 2 then ⌊q⌋
  else if 1 / 2 < q - ⌊q⌋ then ⌊q⌋ + 1
  else if ⌊q⌋ % 2 = 0 then ⌊q⌋ else ⌊q⌋ + 1

/-- `ExcelGenerator._calculate_modeled_weeks`: `custom_weeks` when positive;
otherwise, from the Totals dataset's Date column (`Option.none` = column
absent), `max(1, round(len(df['Date'].dropna().unique()) / 7))`, falling
back to 1 when the column is absent, when it has no non-null values, or when
`pd.to_datetime` raises on some value. -/
def calculate_modeled_weeks (customWeeks : Nat)
    (dateCol : Option (List PyVal)) (parsableDate : PyVal → Bool) : ℤ :=
  if 0 < customWeeks then (customWeeks : ℤ)
  else
    match dateCol with
    | Option.none => 1
    | some dates =>
      if (dates.filter (fun v => !(isNA v))).isEmpty then 1
      else if (dates.filter (fun v => !(isNA v))).all parsableDate then
        max 1 (pythonRound
          (((dates.filter (fun v => !(isNA v))).dedup.length : ℚ) / 7))
      else 1

/-- The spec's description of modeled weeks, written from its words:
`customWeeks` if > 0, else `max(1, round(distinctDateCount / 7))` over the
Date column, with a fallback to 1 when the column is absent or
unparsable. -/
def modeledWeeksSpec (customWeeks : Nat)
    (dateCol : Option (List PyVal)) (parsableDate : PyVal → Bool) : ℤ :=
  if 0 < customWeeks then (customWeeks : ℤ)
  else
    match dateCol with
    | Option.none => 1
    | some dates =>
      if (dates.filter (fun v => !(isNA v))).all parsableDate then
        max 1 (pythonRound
          (((dates.filter (fun v => !(isNA v))).dedup.length : ℚ) / 7))
      else 1

/-- The Analysis sheet's `annual_factor = round(52 / modeled_weeks)`
(`excel_generator.py`, line 90). -/
def annual_factor (customWeeks : Nat) (dateCol : Option (List PyVal))
    (parsableDate : PyVal → Bool) : ℤ :=
  pythonRound (52 / (calculate_modeled_weeks customWeeks dateCol parsableDate : ℚ))

theorem pythonRound_zero : pythonRound 0 = 0 := by
  norm_num [pythonRound]

/-- C7: the Analysis sheet's annualization factor is
`round(52 / modeledWeeks)` with `modeledWeeks` exactly as the spec describes
it (`customWeeks` when positive, else `max(1, round(distinctDateCount/7))`
over the Totals Date column with fallback 1 when absent or unparsable), and
`modeledWeeks` is never 0 — it is always at least 1. -/
theorem annual_factor_spec (customWeeks : Nat) (dateCol : Option (List PyVal))
    (parsableDate : PyVal → Bool) :
    calculate_modeled_weeks customWeeks dateCol parsableDate =
      modeledWeeksSpec customWeeks dateCol parsableDate
  ∧ 1 ≤ calculate_modeled_weeks customWeeks dateCol parsableDate
  ∧ annual_factor customWeeks dateCol parsableDate =
      pythonRound (52 / (modeledWeeksSpec customWeeks dateCol parsableDate : ℚ)) := by
  have heq : calculate_modeled_weeks customWeeks dateCol parsableDate =
      modeledWeeksSpec customWeeks dateCol parsableDate := by
    unfold calculate_modeled_weeks modeledWeeksSpec
    by_cases hcw : 0 < customWeeks
    · simp [hcw]
    · simp only [hcw, if_false]
      cases dateCol with
      | none => rfl
      | some dates =>
        by_cases he : (dates.filter (fun v => !(isNA v))).isEmpty
        · have hnil : dates.filter (fun v => !(isNA v)) = [] := by
            simpa using he
          simp [he, hnil, pythonRound_zero]
        · simp [he]
  refine ⟨heq, ?_, ?_⟩
  · unfold calculate_modeled_weeks
    by_cases hcw : 0 < customWeeks
    · simp only [hcw, if_true]
      exact_mod_cast hcw
    · simp only [hcw, if_false]
      cases dateCol with
      | none => exact le_refl 1
      | some dates =>
        by_cases he : (dates.filter (fun v => !(isNA v))).isEmpty
        · simp [he]
        · by_cases hp : (dates.filter (fun v => !(isNA v))).all parsableDate
          · simp only [he, hp, if_false, if_true, Bool.false_eq_true]
            exact le_max_left 1 _
          · simp [he, hp]
  · unfold annual_factor
    rw [heq]

/-- Witness for C7: the spec's example — `modeledWeeks = 13` (via
`customWeeks = 13`) gives annualization factor `round(52/13) = 4`. -/
theorem annual_factor_spec_witness :
    annual_factor 13 Option.none (fun _ => false) = 4 := by
  have h := (annual_factor_spec 13 Option.none (fun _ => false)).2.2
  rw [h]
  norm_num [modeledWeeksSpec, pythonRound]

/-! ## Processing stage (`DataProcessor.process_extracted_files`) and
cleanup (`DataProcessor._cleanup_extracted_files`)

`process_extracted_files` loops over the extraction directory, processing
files ending in `.xlsx`/`.xls` (per-file exceptions are caught and the file
skipped), then builds the three fixed-schema dataframes, applies the two
enhancements, and only then calls `_cleanup_extracted_files`.  The cleanup
call is not in a `finally` block: if dataframe construction raises (pandas
raises `ValueError` when a row's width differs from the declared column
list), the exception propagates and no file is deleted.  File removals
themselves are modelled as succeeding. -/

/-- Column list of `_create_totals_dataframe` (28 columns). -/
def totalsColumns : List String :=
  ["Total", "Duration", "Pallets", "Cubes", "Cases", "Pounds", "Routes",
   "Stops", "Distance", "Cube Per Mile", "11", "12", "13", "14", "15",
   "16", "17", "18", "19", "20", "Source", "Date", "Report", "DC",
   "Country", "Commodity", "Release ID", "Simulation"]

/-- Column list of `_create_mdt_dataframe` (29 columns). -/
def mdtColumns : List String :=
  ["Activity start time", "Hours", "Trailer", "Backhaul Info", "Route Number",
   "Activity Type", "Unit Type", "Unit Profile", "Drop Profile", "Start Window",
   "End Window", "DC", "City", "State", "LBS", "Pallets", "Cubes", "Cases",
   "Distance", "Comment", "Trip Id", "Source", "Date", "Report", "DC ID",
   "Country", "Commodity", "Release ID", "Simulation"]

/-- Column list of `_create_dispatch_dataframe` (28 columns). -/
def dispatchColumns : List String :=
  ["Activity start time", "Trailer", "Backhaul Info", "Route Number",
   "Activity Type", "Unit Type", "Unit Profile", "Drop Profile", "Start Window",
   "End Window", "Store Club Id", "Store Club City", "Store Club State", "LBS",
   "Pallets", "Cubes", "Cases", "Distance", "Comment", "Trip Id", "Source",
   "Date", "Report", "DC", "Country", "Commodity", "Release ID", "Simulation"]

/-- `pd.DataFrame(data, columns=cols)`: succeeds when every row has the
declared width, raises `ValueError` otherwise. -/
def makeDataFrame (cols : List String) (rows : List (List PyVal)) :
    Except Unit (List (List PyVal)) :=
  if rows.all (fun r => r.length = cols.length) then Except.ok rows
  else Except.error ()

/-- The `"{h:02d}:00-{(h+1)%24:02d}:00"` label of `_map_time_ranges`. -/
def time_range_label (h : Nat) : String :=
  twoDigit h ++ ":00-" ++ twoDigit ((h + 1) % 24) ++ ":00"
where
  twoDigit (n : Nat) : String :=
    if n < 10 then "0" ++ toString n else toString n

/-- `DataProcessor._map_time_ranges` on the assembled MDT table: appends a
`Time Range` column mapping the `Hours` column (index 1) through the 24
labels; hours outside the dict (nulls) map to null. -/
def map_time_ranges (rows : List (List PyVal)) : List (List PyVal) :=
  rows.map (fun r => r ++
    [match r.getD 1 PyVal.nan with
     | PyVal.int h => if 0 ≤ h ∧ h < 24 then PyVal.str (time_range_label h.toNat)
                      else PyVal.nan
     | _ => PyVal.nan])

/-- Projection from a width-28 dispatch row to the columns the enhancement
step reads or writes, per `dispatchColumns` (0 = Activity start time,
3 = Route Number, 5 = Unit Type, 18 = Comment, 19 = Trip Id,
27 = Simulation). -/
def toDispatchRow (r : List PyVal) : DispatchRow :=
  { activityStartTime := r.getD 0 PyVal.nan, routeNumber := r.getD 3 PyVal.nan,
    unitType := r.getD 5 PyVal.nan, comment := r.getD 18 PyVal.nan,
    tripId := r.getD 19 PyVal.nan, simulation := r.getD 27 PyVal.nan }

/-- `file.endswith(('.xlsx', '.xls'))`: the filter of the processing loop. -/
def isExcelFile (f : String) : Bool :=
  pyEndsWith f ".xlsx" || pyEndsWith f ".xls"

/-- The accumulation loop of `process_extracted_files`: each `.xlsx`/`.xls`
file's `_process_single_file` outcome (an `Except`, since per-file errors
are caught and the file skipped) contributes its row triple in directory
order. -/
def collectRows (folder : List String)
    (readFile : String → Except Unit
      (List (List PyVal) × List (List PyVal) × List (List PyVal))) :
    List (List PyVal) × List (List PyVal) × List (List PyVal) :=
  folder.foldl
    (fun acc f =>
      if isExcelFile f then
        match readFile f with
        | Except.ok (t, m, d) => (acc.1 ++ t, acc.2.1 ++ m, acc.2.2 ++ d)
        | Except.error _ => acc
      else acc)
    ([], [], [])

/-- `DataProcessor.process_extracted_files`: returns the result of dataset
assembly (datasets, or the propagated exception) together with the list of
files left in the extraction directory when the invocation ends.  Cleanup
runs only after all three dataframes are built and enhanced; an assembly
exception propagates before `_cleanup_extracted_files` is reached, leaving
every file in place. -/
def process_extracted_files (folder : List String)
    (readFile : String → Except Unit
      (List (List PyVal) × List (List PyVal) × List (List PyVal))) :
    Except Unit
      (List (List PyVal) × List (List PyVal) × List DispatchRow) ×
    List String :=
  match makeDataFrame totalsColumns (collectRows folder readFile).1 with
  | Except.error _ => (Except.error (), folder)
  | Except.ok df1 =>
    match makeDataFrame mdtColumns (collectRows folder readFile).2.1 with
    | Except.error _ => (Except.error (), folder)
    | Except.ok df2 =>
      match makeDataFrame dispatchColumns (collectRows folder readFile).2.2 with
      | Except.error _ => (Except.error (), folder)
      | Except.ok df3 =>
        (Except.ok (df1, map_time_ranges df2,
          enhance_dispatch_data (df3.map toDispatchRow)), [])

/-- Counterexample to C9 as stated: one extracted file `"a.xlsx"` whose
processing yields a totals row of width 1 (any width other than 28) makes
`_create_totals_dataframe` raise; the exception propagates out of
`process_extracted_files` before cleanup, and the extracted file survives
the invocation. -/
theorem process_extracted_files_counterexample :
    (process_extracted_files ["a.xlsx"]
        (fun _ => Except.ok ([[PyVal.int 0]], [], []))).1 = Except.error () ∧
    (process_extracted_files ["a.xlsx"]
        (fun _ => Except.ok ([[PyVal.int 0]], [], []))).2 = ["a.xlsx"] ∧
    (["a.xlsx"] : List String) ≠ [] := by
  refine ⟨rfl, rfl, by decide⟩

/-- C9 (amended): on the success path of dataset assembly every extracted
file is deleted before the invocation ends; but on the failure path —
dataset assembly raising — the exception propagates before the cleanup call,
so every extracted file is still present when the invocation ends. -/
theorem process_extracted_files_cleanup_spec (folder : List String)
    (readFile : String → Except Unit
      (List (List PyVal) × List (List PyVal) × List (List PyVal))) :
    (∀ dfs, (process_extracted_files folder readFile).1 = Except.ok dfs →
      (process_extracted_files folder readFile).2 = [])
  ∧ ((process_extracted_files folder readFile).1 = Except.error () →
      (process_extracted_files folder readFile).2 = folder) := by
  unfold process_extracted_files
  cases makeDataFrame totalsColumns (collectRows folder readFile).1 with
  | error e => exact ⟨fun dfs h => (nomatch h), fun _ => rfl⟩
  | ok df1 =>
    cases makeDataFrame mdtColumns (collectRows folder readFile).2.1 with
    | error e => exact ⟨fun dfs h => (nomatch h), fun _ => rfl⟩
    | ok df2 =>
      cases makeDataFrame dispatchColumns (collectRows folder readFile).2.2 with
      | error e => exact ⟨fun dfs h => (nomatch h), fun _ => rfl⟩
      | ok df3 => exact ⟨fun dfs _ => rfl, fun h => (nomatch h)⟩

/-- Witness for C9 (amended): an empty-input run assembles three empty
datasets successfully, and the extraction directory is empty afterwards. -/
theorem process_extracted_files_cleanup_spec_witness :
    (process_extracted_files ["a.xlsx"]
        (fun _ => Except.ok ([], [], []))).2 = [] := by
  apply (process_extracted_files_cleanup_spec ["a.xlsx"]
    (fun _ => Except.ok ([], [], []))).1 ([], [], [])
  rfl

/-! ## Archive extraction (`DataProcessor.extract_files`)

`extract_files` walks the input directory; for each ZIP archive it extracts
the members ending in `.xlsx`, `.xls` or `.csv` that pass the backhaul
exclusion.  A corrupt archive (`Option.none` below) is logged and skipped.
Name collisions overwrite, which does not affect the extracted name set. -/

/-- The default exclusion substring. -/
def backhaulPattern : String := "Unplanned_Backhauls_Reason"

/-- The member filter of `extract_files`: spreadsheet suffix, and — when
backhaul exclusion is on — `"Unplanned_Backhauls_Reason" not in member`. -/
def should_extract (excludeBackhauls : Bool) (member : String) : Bool :=
  (pyEndsWith member ".xlsx" || pyEndsWith member ".xls" ||
    pyEndsWith member ".csv") &&
  (!excludeBackhauls || !(pyContains member backhaulPattern))

/-- `DataProcessor.extract_files` over the member lists of the readable
archives (`Option.none` = a `BadZipFile`, logged and skipped): the names
extracted into the output directory. -/
def extract_files (excludeBackhauls : Bool)
    (archives : List (Option (List String))) : List String :=
  (archives.filterMap id).flatten.filter (should_extract excludeBackhauls)

theorem csv_not_excel (f : String) (h : pyEndsWith f ".csv" = true) :
    isExcelFile f = false := by
  have hcsv : (".csv".toList.reverse) <+: f.toList.reverse :=
    List.isPrefixOf_iff_prefix.mp h
  unfold isExcelFile
  cases hx : pyEndsWith f ".xlsx" with
  | true =>
    exfalso
    have hx2 : (".xlsx".toList.reverse) <+: f.toList.reverse :=
      List.isPrefixOf_iff_prefix.mp hx
    have hpp : (".csv".toList.reverse) <+: (".xlsx".toList.reverse) :=
      List.prefix_of_prefix_length_le hcsv hx2 (by decide)
    obtain ⟨t, ht⟩ := hpp
    simp at ht
  | false =>
    cases hl : pyEndsWith f ".xls" with
    | true =>
      exfalso
      have hl2 : (".xls".toList.reverse) <+: f.toList.reverse :=
        List.isPrefixOf_iff_prefix.mp hl
      have hpp : (".csv".toList.reverse) <+: (".xls".toList.reverse) :=
        List.prefix_of_prefix_length_le hcsv hl2 (by decide)
      obtain ⟨t, ht⟩ := hpp
      simp at ht
    | false => simp

theorem collectRows_csv_only (folder : List String)
    (readFile : String → Except Unit
      (List (List PyVal) × List (List PyVal) × List (List PyVal)))
    (hcsv : ∀ f ∈ folder, pyEndsWith f ".csv" = true) :
    collectRows folder readFile = ([], [], []) := by
  unfold collectRows
  induction folder with
  | nil => rfl
  | cons f rest ih =>
    rw [List.foldl_cons]
    have hf : isExcelFile f = false := csv_not_excel f (hcsv f (by simp))
    simp only [hf, Bool.false_eq_true, if_false]
    exact ih (fun g hg => hcsv g (by simp [hg]))

/-- C10: for every configuration and archive collection, (a) every member of
a readable archive that ends in `.csv` and passes the backhaul exclusion is
extracted to the output directory; (b) extracted `.csv` files never
contribute rows, because the processing loop reads only files ending in
`.xlsx` or `.xls`; and therefore (c) if every spreadsheet-suffixed member of
every readable archive ends in `.csv`, the processing stage succeeds with
all three assembled datasets empty. -/
theorem extract_csv_never_classified (excludeBackhauls : Bool)
    (archives : List (Option (List String)))
    (readFile : String → Except Unit
      (List (List PyVal) × List (List PyVal) × List (List PyVal))) :
    (∀ m ∈ (archives.filterMap id).flatten, pyEndsWith m ".csv" = true →
      (excludeBackhauls = true → pyContains m backhaulPattern = false) →
      m ∈ extract_files excludeBackhauls archives)
  ∧ (∀ f ∈ extract_files excludeBackhauls archives,
      pyEndsWith f ".csv" = true → isExcelFile f = false)
  ∧ ((∀ m ∈ (archives.filterMap id).flatten,
        (pyEndsWith m ".xlsx" || pyEndsWith m ".xls" ||
          pyEndsWith m ".csv") = true → pyEndsWith m ".csv" = true) →
      (process_extracted_files (extract_files excludeBackhauls archives)
        readFile).1 = Except.ok ([], [], [])) := by
  refine ⟨?_, ?_, ?_⟩
  · intro m hm hcsv hexc
    apply List.mem_filter.mpr
    refine ⟨hm, ?_⟩
    unfold should_extract
    rw [hcsv]
    cases excludeBackhauls with
    | false => simp
    | true => simp [hexc rfl]
  · intro f _ hcsv
    exact csv_not_excel f hcsv
  · intro hall
    have hcsv : ∀ f ∈ extract_files excludeBackhauls archives,
        pyEndsWith f ".csv" = true := by
      intro f hf
      have hmem := List.mem_filter.mp hf
      have hsuf : (pyEndsWith f ".xlsx" || pyEndsWith f ".xls" ||
          pyEndsWith f ".csv") = true := by
        have := hmem.2
        unfold should_extract at this
        exact (Bool.and_eq_true_iff.mp this).1
      exact hall f hmem.1 hsuf
    unfold process_extracted_files
    rw [collectRows_csv_only _ readFile hcsv]
    rfl

/-- Witness for C10: one readable archive containing the single member
`"a.csv"` (with backhaul exclusion on): the member is extracted, it is not
an Excel file for the processing loop, and the assembled datasets are all
empty. -/
theorem extract_csv_never_classified_witness :
    "a.csv" ∈ extract_files true [some ["a.csv"]] ∧
    (process_extracted_files (extract_files true [some ["a.csv"]])
      (fun _ => Except.ok ([], [], []))).1 = Except.ok ([], [], []) := by
  have h := extract_csv_never_classified true [some ["a.csv"]]
    (fun _ => Except.ok ([], [], []))
  constructor
  · exact h.1 "a.csv" (by decide) (by decide) (fun _ => by decide)
  · exact h.2.2 (by decide)
